import Mathlib

/-!
Verification development for the fatcat disk-scan utility (src/main.rs).

The core pipeline is embedded shallowly:
* `FileInfo` mirrors the Rust struct (path, u64 size; sizes are modelled as
  `Nat`, every value produced by the filesystem fits in 64 bits).
* The walker stream consumed by `scan_directory` (main.rs lines 198-219) is
  modelled as a list of `Entry` values: jwalk yields `Result` entries and the
  loop keeps only the `Ok` ones via `filter_map(|e| e.ok())`, so the list
  models the post-`ok()` stream; each entry carries its type tag and the
  outcome of the `entry.metadata()` lookup (`none` models a failed lookup).
* The loop body is `scan_step`; folding it over the stream is `scan_run`.
* `files.sort_unstable_by(|a, b| b.size.cmp(&a.size))` (line 223) calls the
  Rust standard library's unstable sort, whose code is not part of this
  repository; it is modelled by its documented contract `sorted_by_spec`:
  the output is a permutation of the input in which no adjacent pair
  compares `Greater` under the comparator. Stability is *not* part of that
  contract.
* The report layer (top-N slice in main, totals and buckets in
  write_log/main) is embedded as `build_report` and the bucket counters.
-/

namespace Fatcat

/-- Rust struct `FileInfo { path: PathBuf, size: u64 }` (main.rs 22-26). -/
structure FileInfo where
  path : String
  size : Nat
deriving DecidableEq, Repr

/-- Classification of a walker entry, per `entry.file_type()`:
`is_dir()`, `is_file()`, or neither (symlinks, special files). -/
inductive EntryType where
  | dir
  | file
  | other
deriving DecidableEq, Repr

/-- One `Ok` entry of the jwalk stream: its path, its type tag, and the
result of the `entry.metadata()` size lookup (`none` = the lookup failed). -/
structure Entry where
  path : String
  etype : EntryType
  metadata : Option Nat
deriving DecidableEq, Repr

/-- The mutable state of the scan loop: the `files` vector plus the two
`AtomicU64` counters `file_count` and `dir_count` (main.rs 183-184, 196). -/
structure ScanState where
  files : List FileInfo
  file_count : Nat
  dir_count : Nat
deriving DecidableEq, Repr

/-- Counters start at 0 (main.rs 390-391) and the vector starts empty
(main.rs 196). -/
def init_state : ScanState := { files := [], file_count := 0, dir_count := 0 }

/-- The body of the scan loop (main.rs 204-219): directories bump
`dir_count`; regular files bump `file_count`, then on a successful metadata
lookup the file is pushed when `size >= min_size_bytes`; a failed lookup
skips silently; any other entry type is ignored entirely. -/
def scan_step (min_size_bytes : Nat) (st : ScanState) (e : Entry) : ScanState :=
  match e.etype with
  | EntryType.dir => { st with dir_count := st.dir_count + 1 }
  | EntryType.file =>
      let st1 := { st with file_count := st.file_count + 1 }
      match e.metadata with
      | some size =>
          if size ≥ min_size_bytes then
            { st1 with files := st1.files ++ [{ path := e.path, size := size }] }
          else st1
      | none => st1
  | EntryType.other => st

/-- The whole walk loop: fold `scan_step` over the entry stream. -/
def scan_run (min_size_bytes : Nat) (stream : List Entry) : ScanState :=
  stream.foldl (scan_step min_size_bytes) init_state

/-- The comparator `|a, b| b.size.cmp(&a.size)` passed to the sort
(main.rs 223). -/
def sortCmp (a b : FileInfo) : Ordering := compare b.size a.size

/-- A list is ordered by the line-223 comparator when no adjacent pair
compares `Greater`. -/
def sorted_ok : List FileInfo → Bool
  | a :: b :: rest => decide (sortCmp a b ≠ Ordering.gt) && sorted_ok (b :: rest)
  | _ => true

/-- Documented contract of `slice::sort_unstable_by` with `sortCmp`
(main.rs 223): the result is a permutation of the input ordered by the
comparator (no adjacent pair compares `Greater`). The standard library
explicitly does not guarantee stability, so the contract says nothing
about the relative order of equal elements. -/
def sorted_by_spec (input output : List FileInfo) : Prop :=
  input.Perm output ∧ sorted_ok output = true

/-- `scan_directory root min_size file_count dir_count` as a relation between
the walker stream and the returned vector: run the loop, then any output
admissible for the line-223 sort. -/
def scan_directory_spec (min_size_bytes : Nat) (stream : List Entry)
    (out : List FileInfo) : Prop :=
  sorted_by_spec (scan_run min_size_bytes stream).files out

/-- A sorted output is stable with respect to the collection order when,
size by size, the equal-size records appear in exactly their collected
order: filtering both lists to any one size gives identical lists. -/
def stable_for (collected out : List FileInfo) : Prop :=
  ∀ s : Nat, out.filter (fun f => f.size == s) = collected.filter (fun f => f.size == s)

/-- Per-entry admission test of the loop (main.rs 207-217): a regular file
whose metadata lookup succeeded with `size >= min_size_bytes`. -/
def includeEntry (min_size_bytes : Nat) (e : Entry) : Bool :=
  match e.etype, e.metadata with
  | EntryType.file, some size => size ≥ min_size_bytes
  | _, _ => false

/-- The record pushed for an admitted entry (main.rs 212-215). -/
def toRecord (e : Entry) : FileInfo :=
  { path := e.path, size := e.metadata.getD 0 }

/-- `const KB: u64 = 1024` (main.rs 29). -/
def KB : Nat := 1024

/-- `const MB: u64 = KB * 1024` (main.rs 30). -/
def MB : Nat := KB * 1024

/-- `const GB: u64 = MB * 1024` (main.rs 31). -/
def GB : Nat := MB * 1024

/-- `const TB: u64 = GB * 1024` (main.rs 32). -/
def TB : Nat := GB * 1024

/-- The five magnitude units `format_size` can choose. -/
inductive SizeUnit where
  | B
  | KB
  | MB
  | GB
  | TB
deriving DecidableEq, Repr

/-- Order of magnitude of a unit, for comparing chosen units. -/
def unitRank : SizeUnit → Nat
  | SizeUnit.B => 0
  | SizeUnit.KB => 1
  | SizeUnit.MB => 2
  | SizeUnit.GB => 3
  | SizeUnit.TB => 4

/-- The unit-selection branch structure of `format_size` (main.rs 34-44):
thresholds evaluated largest-first, first match wins. The numeric text of
the output (two-decimal floating-point division) is presentation only and
carries no further branch decisions, so the embedding records the chosen
unit. -/
def format_size_unit (bytes : Nat) : SizeUnit :=
  if bytes ≥ TB then SizeUnit.TB
  else if bytes ≥ GB then SizeUnit.GB
  else if bytes ≥ MB then SizeUnit.MB
  else if bytes ≥ KB then SizeUnit.KB
  else SizeUnit.B

/-- Top-bucket test `f.size >= 1_073_741_824` (main.rs 257 and 411). -/
def isGBFile (f : FileInfo) : Bool := f.size ≥ 1073741824

/-- Middle-bucket test `f.size >= 524_288_000 && f.size < 1_073_741_824`
(main.rs 259-260 and 413-414). -/
def isMB500File (f : FileInfo) : Bool := f.size ≥ 524288000 && f.size < 1073741824

/-- Bottom-bucket test `f.size >= 104_857_600 && f.size < 524_288_000`
(main.rs 263-264 and 417-418). -/
def isMB100File (f : FileInfo) : Bool := f.size ≥ 104857600 && f.size < 524288000

/-- `files.iter().filter(|f| f.size >= 1_073_741_824).count()` (main.rs 257,
411). -/
def gb_files (files : List FileInfo) : Nat := (files.filter isGBFile).length

/-- The 500 MB - 1 GB bucket count (main.rs 258-261, 412-415). -/
def mb_500_files (files : List FileInfo) : Nat := (files.filter isMB500File).length

/-- The 100 MB - 500 MB bucket count (main.rs 262-265, 416-419). -/
def mb_100_files (files : List FileInfo) : Nat := (files.filter isMB100File).length

/-- The data the report layer derives from the full sorted result. -/
structure ReportView where
  top : List FileInfo
  total : Nat
  gb : Nat
  mb500 : Nat
  mb100 : Nat
deriving DecidableEq, Repr

/-- The report layer: the displayed top slice is the first
`min(top_n, files.len())` records (main.rs 434-443); the total and the
three bucket counts are computed over the FULL `files` list (main.rs
253-254, 257-265 and 411-420). -/
def build_report (files : List FileInfo) (top_n : Nat) : ReportView :=
  { top := files.take (min top_n files.length)
  , total := (files.map fun f => f.size).sum
  , gb := gb_files files
  , mb500 := mb_500_files files
  , mb100 := mb_100_files files }

/-! ## Helper lemmas -/

/-- A list accepted by the comparator check is non-increasing in size. -/
theorem sorted_ok_chain {l : List FileInfo} (h : sorted_ok l = true) :
    List.Chain' (fun a b => b.size ≤ a.size) l := by
  induction l with
  | nil => simp
  | cons a t ih =>
    cases t with
    | nil => simp
    | cons b r =>
      rw [List.chain'_cons]
      simp only [sorted_ok, Bool.and_eq_true, decide_eq_true_eq, ne_eq] at h
      refine ⟨?_, ih h.2⟩
      have hc := h.1
      simp only [sortCmp] at hc
      rcases Nat.lt_trichotomy a.size b.size with hlt | heq | hgt
      · exact absurd (by simpa [Nat.compare_eq_gt] using hlt) hc
      · omega
      · omega

/-- The loop collects exactly the admitted entries, in stream order. -/
theorem foldl_scan_files (m : Nat) (stream : List Entry) (st : ScanState) :
    (List.foldl (scan_step m) st stream).files
      = st.files ++ (stream.filter (includeEntry m)).map toRecord := by
  induction stream generalizing st with
  | nil => simp
  | cons e t ih =>
    obtain ⟨p, ty, md⟩ := e
    cases ty <;> cases md <;>
      simp only [List.foldl_cons, ih, List.filter_cons, scan_step, includeEntry] <;>
      simp [toRecord]
    case file.some s =>
      by_cases hge : s ≥ m <;> simp [hge, toRecord]

/-- One loop iteration bumps `file_count` exactly for regular-file entries. -/
theorem scan_step_file_count (m : Nat) (st : ScanState) (e : Entry) :
    (scan_step m st e).file_count
      = st.file_count + (if e.etype = EntryType.file then 1 else 0) := by
  obtain ⟨p, ty, md⟩ := e
  cases ty <;> cases md <;> simp [scan_step]
  split <;> rfl

/-- One loop iteration bumps `dir_count` exactly for directory entries. -/
theorem scan_step_dir_count (m : Nat) (st : ScanState) (e : Entry) :
    (scan_step m st e).dir_count
      = st.dir_count + (if e.etype = EntryType.dir then 1 else 0) := by
  obtain ⟨p, ty, md⟩ := e
  cases ty <;> cases md <;> simp [scan_step]
  split <;> rfl

/-- Folding the loop with two different thresholds from states agreeing on
the counters yields states agreeing on the counters. -/
theorem foldl_scan_counts (m1 m2 : Nat) (stream : List Entry) (s1 s2 : ScanState)
    (hf : s1.file_count = s2.file_count) (hd : s1.dir_count = s2.dir_count) :
    (List.foldl (scan_step m1) s1 stream).file_count
        = (List.foldl (scan_step m2) s2 stream).file_count
    ∧ (List.foldl (scan_step m1) s1 stream).dir_count
        = (List.foldl (scan_step m2) s2 stream).dir_count := by
  induction stream generalizing s1 s2 with
  | nil => exact ⟨hf, hd⟩
  | cons e t ih =>
    simp only [List.foldl_cons]
    exact ih _ _ (by rw [scan_step_file_count, scan_step_file_count, hf])
      (by rw [scan_step_dir_count, scan_step_dir_count, hd])

/-- The loop preserves `files.length ≤ file_count`. -/
theorem foldl_scan_le (m : Nat) (stream : List Entry) (st : ScanState)
    (h : st.files.length ≤ st.file_count) :
    (List.foldl (scan_step m) st stream).files.length
      ≤ (List.foldl (scan_step m) st stream).file_count := by
  induction stream generalizing st with
  | nil => exact h
  | cons e t ih =>
    refine ih _ ?_
    obtain ⟨p, ty, md⟩ := e
    cases ty <;> cases md <;> simp [scan_step] <;> try omega
    case file.some s =>
      split <;> simp <;> omega

/-- Every collected record meets the threshold in force. -/
theorem scan_files_ge (m : Nat) (stream : List Entry) :
    ∀ f ∈ (scan_run m stream).files, m ≤ f.size := by
  intro f hf
  rw [scan_run, foldl_scan_files] at hf
  simp only [init_state, List.nil_append, List.mem_map, List.mem_filter] at hf
  obtain ⟨e, ⟨_, hinc⟩, rfl⟩ := hf
  obtain ⟨p, ty, md⟩ := e
  cases ty <;> cases md <;> simp [includeEntry] at hinc
  case file.some s =>
    simpa [toRecord] using hinc

/-- The three bucket counts add up to the number of records of at least
104857600 bytes. -/
theorem bucket_sum (files : List FileInfo) :
    gb_files files + mb_500_files files + mb_100_files files
      = (files.filter fun f => 104857600 ≤ f.size).length := by
  induction files with
  | nil => rfl
  | cons a t ih =>
    simp only [gb_files, mb_500_files, mb_100_files, List.filter_cons,
      apply_ite List.length, List.length_cons] at ih ⊢
    split_ifs <;> simp_all [isGBFile, isMB500File, isMB100File] <;> omega

/-! ## Claim theorems -/

/-- C1 (claim as stated is refuted): it is NOT the case that every output
admissible for the line-223 sort keeps equal-size records in their
collection order. The sort called at main.rs 223 is
`slice::sort_unstable_by`, whose contract guarantees only a comparator-
sorted permutation and expressly allows equal elements to be reordered.
Concretely, for the stream that collects two size-5 files "a" then "b",
the swapped output `[b, a]` satisfies that contract yet is not stable. -/
theorem stable_sort_claim_refuted :
    ¬ (∀ (m : Nat) (stream : List Entry) (out : List FileInfo),
        scan_directory_spec m stream out →
        stable_for (scan_run m stream).files out) := by
  intro h
  exact absurd
    (h 0 [{ path := "a", etype := EntryType.file, metadata := some 5 },
          { path := "b", etype := EntryType.file, metadata := some 5 }]
       [{ path := "b", size := 5 }, { path := "a", size := 5 }]
       ⟨by decide, by decide⟩ 5)
    (by decide)

/-- C1 (amended): after traversal the collected FileRecords are sorted by
size descending — the result is a permutation of the collected sequence
that is non-increasing in size — but, the sort being unstable, equal-size
records need not retain their relative collection order. -/
theorem sort_perm_and_nonincreasing (m : Nat) (stream : List Entry) (out : List FileInfo)
    (h : scan_directory_spec m stream out) :
    (scan_run m stream).files.Perm out
    ∧ List.Chain' (fun a b => b.size ≤ a.size) out :=
  ⟨h.1, sorted_ok_chain h.2⟩

/-- C1 witness: the amended theorem at a concrete two-file stream. -/
theorem sort_perm_and_nonincreasing_witness :
    (scan_run 1 [{ path := "x", etype := EntryType.file, metadata := some 10 },
        { path := "y", etype := EntryType.file, metadata := some 3 }]).files.Perm
      [{ path := "x", size := 10 }, { path := "y", size := 3 }]
    ∧ List.Chain' (fun a b => b.size ≤ a.size)
        ([{ path := "x", size := 10 }, { path := "y", size := 3 }] : List FileInfo) :=
  sort_perm_and_nonincreasing 1
    [{ path := "x", etype := EntryType.file, metadata := some 10 },
     { path := "y", etype := EntryType.file, metadata := some 3 }]
    [{ path := "x", size := 10 }, { path := "y", size := 3 }]
    ⟨by decide, by decide⟩

/-- C2: the collected list is exactly the stream's regular-file entries with
a successful metadata lookup and `size >= min_size_bytes`, mapped to
records; for such an entry the admission test holds exactly when the size
is at least the threshold, and a threshold of 0 admits every such file,
zero-byte files included. -/
theorem scan_includes_iff_ge (m : Nat) (stream : List Entry) :
    (scan_run m stream).files = (stream.filter (includeEntry m)).map toRecord
    ∧ ∀ (e : Entry) (s : Nat), e.etype = EntryType.file → e.metadata = some s →
        ((includeEntry m e = true ↔ m ≤ s) ∧ includeEntry 0 e = true) := by
  constructor
  · rw [scan_run, foldl_scan_files]; simp [init_state]
  · intro e s hty hmd
    obtain ⟨p, ty, md⟩ := e
    simp only at hty hmd
    subst hty; subst hmd
    exact ⟨by simp [includeEntry], by simp [includeEntry]⟩

/-- C2 witness: the boundary case size = threshold = 7 is admitted, and
threshold 0 admits the file. -/
theorem scan_includes_iff_ge_witness :
    ((includeEntry 7 { path := "z", etype := EntryType.file, metadata := some 7 } = true ↔ 7 ≤ 7)
      ∧ includeEntry 0 { path := "z", etype := EntryType.file, metadata := some 7 } = true) :=
  (scan_includes_iff_ge 7 [{ path := "z", etype := EntryType.file, metadata := some 7 }]).2
    { path := "z", etype := EntryType.file, metadata := some 7 } 7 rfl rfl

/-- C3: the displayed top-list is the initial slice of the sorted result of
length `min(top_n, |files|)` preserving the result order (it concatenates
with the rest back to the full list), while the reported total is the sum
of `size` over the FULL result list — changing `top_n` never changes the
total. -/
theorem report_top_slice_and_total (files : List FileInfo) (top_n : Nat) :
    (build_report files top_n).top = files.take (min top_n files.length)
    ∧ (build_report files top_n).top.length = min top_n files.length
    ∧ (build_report files top_n).top ++ files.drop (min top_n files.length) = files
    ∧ (build_report files top_n).total = (files.map fun f => f.size).sum
    ∧ ∀ m : Nat, (build_report files m).total = (build_report files top_n).total := by
  refine ⟨rfl, ?_, ?_, rfl, fun m => rfl⟩
  · simp [build_report, List.length_take]
  · simp [build_report, List.take_append_drop]

/-- C4: the three bucket tests have exactly the half-open boundaries at the
mixed-base constants 1073741824, 524288000 and 104857600, and a record
below 104857600 bytes is in none of the buckets. -/
theorem bucket_boundaries (f : FileInfo) :
    (isGBFile f = true ↔ 1073741824 ≤ f.size)
    ∧ (isMB500File f = true ↔ (524288000 ≤ f.size ∧ f.size < 1073741824))
    ∧ (isMB100File f = true ↔ (104857600 ≤ f.size ∧ f.size < 524288000))
    ∧ (f.size < 104857600
        ↔ isGBFile f = false ∧ isMB500File f = false ∧ isMB100File f = false) := by
  refine ⟨?_, ?_, ?_, ?_⟩ <;> simp [isGBFile, isMB500File, isMB100File]
  omega

/-- C5: the counters `files_seen` and `dirs_seen` are independent of the
threshold — two runs over the same entry stream with different
`min_size_bytes` values produce identical counters. -/
theorem counters_threshold_independent (stream : List Entry) (m1 m2 : Nat) :
    (scan_run m1 stream).file_count = (scan_run m2 stream).file_count
    ∧ (scan_run m1 stream).dir_count = (scan_run m2 stream).dir_count :=
  foldl_scan_counts m1 m2 stream init_state init_state rfl rfl

/-- C6: after the scan, `files_seen` is at least the number of records in
the result list (the result is a filtered subset of the counted files). -/
theorem files_seen_ge_result (m : Nat) (stream : List Entry) (out : List FileInfo)
    (h : scan_directory_spec m stream out) :
    out.length ≤ (scan_run m stream).file_count := by
  have hlen := h.1.length_eq
  rw [← hlen]
  exact foldl_scan_le m stream init_state (by simp [init_state])

/-- C6 witness: a stream of two files of which one passes threshold 2. -/
theorem files_seen_ge_result_witness :
    ([{ path := "b", size := 3 }] : List FileInfo).length
      ≤ (scan_run 2 [{ path := "b", etype := EntryType.file, metadata := some 3 },
          { path := "c", etype := EntryType.file, metadata := some 1 }]).file_count :=
  files_seen_ge_result 2
    [{ path := "b", etype := EntryType.file, metadata := some 3 },
     { path := "c", etype := EntryType.file, metadata := some 1 }]
    [{ path := "b", size := 3 }] ⟨by decide, by decide⟩

/-- C7: the returned sequence is non-increasing in size — every two
adjacent records a, b satisfy `a.size ≥ b.size`. -/
theorem result_nonincreasing (m : Nat) (stream : List Entry) (out : List FileInfo)
    (h : scan_directory_spec m stream out) :
    List.Chain' (fun a b => b.size ≤ a.size) out :=
  sorted_ok_chain h.2

/-- C7 witness: a concrete two-file scan whose output is sorted. -/
theorem result_nonincreasing_witness :
    List.Chain' (fun a b => b.size ≤ a.size)
      ([{ path := "c", size := 9 }, { path := "a", size := 4 }] : List FileInfo) :=
  result_nonincreasing 0
    [{ path := "a", etype := EntryType.file, metadata := some 4 },
     { path := "c", etype := EntryType.file, metadata := some 9 }]
    [{ path := "c", size := 9 }, { path := "a", size := 4 }]
    ⟨by decide, by decide⟩

/-- C8: an entry that is neither a directory nor a regular file leaves the
whole state untouched; a regular-file entry whose metadata lookup fails
only increments `file_count` (no record, no other counter); and such
entries never abort the scan — the loop keeps folding the rest of the
stream. -/
theorem skip_nonfile_and_errors (m : Nat) (st : ScanState) (e : Entry) :
    (e.etype = EntryType.other → scan_step m st e = st)
    ∧ (e.etype = EntryType.file → e.metadata = none →
        scan_step m st e
          = { files := st.files, file_count := st.file_count + 1, dir_count := st.dir_count })
    ∧ (∀ (pre post : List Entry),
        scan_run m (pre ++ e :: post)
          = List.foldl (scan_step m) (scan_step m (List.foldl (scan_step m) init_state pre) e)
              post) := by
  obtain ⟨p, ty, md⟩ := e
  refine ⟨?_, ?_, ?_⟩
  · intro h
    simp only at h
    subst h
    rfl
  · intro h1 h2
    simp only at h1 h2
    subst h1; subst h2
    rfl
  · intro pre post
    simp [scan_run, List.foldl_append]

/-- C8 witness: an `other` entry is a no-op; a file entry with a failed
metadata lookup bumps only `file_count`. -/
theorem skip_nonfile_and_errors_witness :
    (scan_step 5 init_state { path := "s", etype := EntryType.other, metadata := none }
        = init_state)
    ∧ (scan_step 5 init_state { path := "t", etype := EntryType.file, metadata := none }
        = { files := init_state.files, file_count := init_state.file_count + 1,
            dir_count := init_state.dir_count }) :=
  ⟨(skip_nonfile_and_errors 5 init_state
      { path := "s", etype := EntryType.other, metadata := none }).1 rfl,
   (skip_nonfile_and_errors 5 init_state
      { path := "t", etype := EntryType.file, metadata := none }).2.1 rfl rfl⟩

/-- C9: `format_size` is monotone in its chosen unit — for byte counts
x < y (within u64 range) the unit selected for y is never smaller than the
unit selected for x. -/
theorem format_size_unit_mono (x y : Nat) (hxy : x < y) (_ybound : y < 2 ^ 64) :
    unitRank (format_size_unit x) ≤ unitRank (format_size_unit y) := by
  unfold format_size_unit
  split_ifs <;> simp [unitRank] <;> omega

/-- C9 witness: 1024 bytes (KB) against 1048576 bytes (MB). -/
theorem format_size_unit_mono_witness :
    1024 < 1048576 ∧ 1048576 < 2 ^ 64
    ∧ unitRank (format_size_unit 1024) ≤ unitRank (format_size_unit 1048576) :=
  ⟨by decide, by decide, format_size_unit_mono 1024 1048576 (by decide) (by decide)⟩

/-- C10: the three bucket tests are pairwise disjoint; their counts always
add up to the number of records of at least 104857600 bytes; and when the
threshold is at least 104857600 the three buckets partition the entire
scan result. -/
theorem buckets_disjoint_cover :
    (∀ f : FileInfo,
        ¬(isGBFile f = true ∧ isMB500File f = true)
        ∧ ¬(isGBFile f = true ∧ isMB100File f = true)
        ∧ ¬(isMB500File f = true ∧ isMB100File f = true))
    ∧ (∀ files : List FileInfo,
        gb_files files + mb_500_files files + mb_100_files files
          = (files.filter fun f => 104857600 ≤ f.size).length)
    ∧ (∀ (m : Nat) (stream : List Entry) (out : List FileInfo),
        104857600 ≤ m → scan_directory_spec m stream out →
        gb_files out + mb_500_files out + mb_100_files out = out.length) := by
  refine ⟨?_, bucket_sum, ?_⟩
  · intro f
    refine ⟨?_, ?_, ?_⟩ <;> simp [isGBFile, isMB500File, isMB100File] <;> omega
  · intro m stream out hm hspec
    have hall : ∀ f ∈ out, (104857600 : Nat) ≤ f.size := by
      intro f hf
      exact le_trans hm (scan_files_ge m stream f (hspec.1.mem_iff.mpr hf))
    rw [bucket_sum]
    congr 1
    exact List.filter_eq_self.mpr (by intro a ha; simpa using hall a ha)

/-- C10 witness: a one-file scan at exactly the 104857600 threshold is
fully covered by the buckets. -/
theorem buckets_disjoint_cover_witness :
    gb_files [{ path := "g", size := 2000000000 }]
      + mb_500_files [{ path := "g", size := 2000000000 }]
      + mb_100_files [{ path := "g", size := 2000000000 }]
      = ([{ path := "g", size := 2000000000 }] : List FileInfo).length :=
  buckets_disjoint_cover.2.2 104857600
    [{ path := "g", etype := EntryType.file, metadata := some 2000000000 }]
    [{ path := "g", size := 2000000000 }] (by decide) ⟨by decide, by decide⟩

end Fatcat
